import Mathlib

/-!
Verification of the flashcard session module
(src/vuetify-project/src/composables/flashcard.ts).

Modelling conventions for the shallow embedding:

* The module's singleton reactive state (`currentDeck`, `loadFinished`,
  `flashcard`, `showAnswer`, `historyRecords`, `cardIndex`) is a record
  `FlashcardState`; every operation is a pure function from state to state.
* The browser collaborators are parameters: an image fetch is an oracle
  `String → FetchResponse` from the requested source path to the observable
  part of the response (HTTP `ok` plus the blob's content type); the
  key-value persistence store entry for one key is an `Option String`
  (`none` models an absent key); `JSON.parse` / `JSON.stringify` are
  platform builtins and appear as parameter functions where a claim needs
  them.
* `Math.random()`-driven choices are parameters: a selected index is a `Nat`
  argument (with `Math.floor (Math.random () * len) < len` reflected as a
  hypothesis where it matters), and the comparator-randomised
  `itemNames.sort` is a `shuffle` function parameter.
* A thrown exception is `Except.error`; a `try/catch` that absorbs the
  error is a `match` discarding the `error` case.
* `Date.now()` timestamps are `Nat` parameters.
-/

/-- The `Flashcard` type: an image source locator plus a display name
(the two fields the module reads and writes). -/
structure Flashcard where
  imageSrc : String
  name : String
  deriving Repr, DecidableEq

/-- One answer-history entry, as in the `HistoryRecord` interface of the
source: a value snapshot of the answered card, the correctness flag and an
epoch-milliseconds timestamp. -/
structure HistoryRecord where
  flashcard : Flashcard
  isCorrect : Bool
  timestamp : Nat
  deriving Repr, DecidableEq

/-- The observable part of a fetched image response that `LoadImageBySrc`
inspects: `response.ok` and the content type of `response.blob()`. -/
structure FetchResponse where
  ok : Bool
  blobType : String
  deriving Repr, DecidableEq

/-- The module-level singleton state. `cardIndex` is the plain (non-ref)
module variable of the same name. -/
structure FlashcardState where
  currentDeck : List Flashcard
  loadFinished : Bool
  flashcard : Flashcard
  showAnswer : Bool
  historyRecords : List HistoryRecord
  cardIndex : Nat
  deriving Repr, DecidableEq

/-- The initial values of the module's refs: empty deck, load not finished,
placeholder card with empty fields, answer hidden, empty history, index 0. -/
def initialState : FlashcardState :=
  { currentDeck := []
    loadFinished := false
    flashcard := { imageSrc := "", name := "" }
    showAnswer := false
    historyRecords := []
    cardIndex := 0 }

/-- Embedding of `LoadImageBySrc`: given the fetch response for `src`, throw
when the response is not ok; otherwise accept the image exactly when the
blob's content type is `image/jpeg` or `image/png`, pushing a new card onto
the deck; any other content type throws (`Not a jpeg or png image`). The
returned list is the updated `currentDeck`; `Except.error` leaves the deck
untouched (in the source the `push` is never reached on those paths). -/
def LoadImageBySrc (response : FetchResponse) (src itemName : String)
    (deck : List Flashcard) : Except String (List Flashcard) :=
  if !response.ok then
    Except.error ("Failed to load image: " ++ src)
  else if response.blobType == "image/jpeg" || response.blobType == "image/png" then
    Except.ok (deck ++ [{ imageSrc := src, name := itemName }])
  else
    Except.error "Not a jpeg or png image"

/-- C8: an entry is added to the deck exactly when the response is ok and its
blob content type is exactly `image/jpeg` or `image/png`; any other content
type (for example `text/html`) makes `LoadImageBySrc` throw, so the candidate
is a failed attempt and never appears in the deck; on success the one new
entry is appended at the end. -/
theorem C8_content_type_guard (response : FetchResponse) (src itemName : String)
    (deck : List Flashcard) :
    ((∃ d, LoadImageBySrc response src itemName deck = Except.ok d)
        ↔ response.ok = true ∧
            (response.blobType = "image/jpeg" ∨ response.blobType = "image/png"))
      ∧ ∀ d, LoadImageBySrc response src itemName deck = Except.ok d →
          d = deck ++ [{ imageSrc := src, name := itemName }] := by
  cases hok : response.ok with
  | false =>
    simp [LoadImageBySrc, hok]
  | true =>
    by_cases h1 : response.blobType = "image/jpeg"
    · simp [LoadImageBySrc, hok, h1]
    · by_cases h2 : response.blobType = "image/png"
      · simp [LoadImageBySrc, hok, h1, h2]
      · simp [LoadImageBySrc, hok, h1, h2]

/-- Embedding of `NextCard`: `cardIndex` becomes
`Math.floor (Math.random () * currentDeck.length)`, modelled by the
`randomIndex` parameter (for an empty deck that expression is `0`, and for a
non-empty deck it lies below the deck length); the active card becomes the
deck entry at that index, with the source's `?? \x7b imageSrc: '', name: '' \x7d`
fallback for an out-of-range access; `showAnswer` resets to `false`. -/
def NextCard (randomIndex : Nat) (st : FlashcardState) : FlashcardState :=
  { st with
    cardIndex := randomIndex
    flashcard := (st.currentDeck[randomIndex]?).getD { imageSrc := "", name := "" }
    showAnswer := false }

/-- Embedding of `AddHistoryRecord`: append a snapshot record of the active
card, then drop the oldest record when the list exceeds 100 entries. The
source's initial `if (!flashcard.value) return` guard is dead code in the
module — the `flashcard` ref always holds an object, which is truthy — so the
embedding has no corresponding branch. `timestamp` stands for `Date.now ()`. -/
def AddHistoryRecord (isCorrect : Bool) (timestamp : Nat) (st : FlashcardState) :
    FlashcardState :=
  let record : HistoryRecord :=
    { flashcard := st.flashcard, isCorrect := isCorrect, timestamp := timestamp }
  let pushed := st.historyRecords ++ [record]
  { st with historyRecords := if 100 < pushed.length then pushed.tail else pushed }

/-- Embedding of `handleAnswer`: record the answer, then advance. -/
def handleAnswer (isCorrect : Bool) (timestamp randomIndex : Nat)
    (st : FlashcardState) : FlashcardState :=
  NextCard randomIndex (AddHistoryRecord isCorrect timestamp st)

/-- Embedding of `HandleCorrect`. -/
def HandleCorrect (timestamp randomIndex : Nat) (st : FlashcardState) : FlashcardState :=
  handleAnswer true timestamp randomIndex st

/-- Embedding of `HandleIncorrect`. -/
def HandleIncorrect (timestamp randomIndex : Nat) (st : FlashcardState) : FlashcardState :=
  handleAnswer false timestamp randomIndex st

/-- Appending a record and then trimming to the cap keeps the new record as
the last element of the history. -/
theorem getLast?_push_trim (l : List HistoryRecord) (r : HistoryRecord) :
    (if 100 < (l ++ [r]).length then (l ++ [r]).tail else l ++ [r]).getLast?
      = some r := by
  split
  · cases l with
    | nil => simp_all
    | cons a t => simp [List.getLast?_concat]
  · simp [List.getLast?_concat]

/-- C7: on an empty deck, `NextCard` does not fail: whatever index the random
draw produces (the source computes `Math.floor (Math.random () * 0) = 0`),
the deck lookup misses and the `??` fallback installs the placeholder card
with empty `imageSrc` and `name`, and `showAnswer` resets to `false`. -/
theorem C7_nextCard_empty_deck (st : FlashcardState) (randomIndex : Nat)
    (h : st.currentDeck = []) :
    (NextCard randomIndex st).flashcard = { imageSrc := "", name := "" } ∧
      (NextCard randomIndex st).showAnswer = false := by
  simp [NextCard, h]

/-- Witness for C7 at the concrete initial state and index 0. -/
theorem C7_nextCard_empty_deck_witness :
    (NextCard 0 initialState).flashcard = { imageSrc := "", name := "" } ∧
      (NextCard 0 initialState).showAnswer = false :=
  C7_nextCard_empty_deck initialState 0 rfl

/-- C3: `handleAnswer` (hence `HandleCorrect` and `HandleIncorrect`) first
appends the history record and then advances, so for every session state and
correctness flag the appended record's `flashcard` field is a value snapshot
of the card active before the call, while the card active after the call is
the freshly drawn deck entry. -/
theorem C3_record_before_advance (st : FlashcardState) (isCorrect : Bool)
    (timestamp randomIndex : Nat) :
    ((handleAnswer isCorrect timestamp randomIndex st).historyRecords).getLast?
        = some { flashcard := st.flashcard, isCorrect := isCorrect,
                 timestamp := timestamp }
      ∧ (handleAnswer isCorrect timestamp randomIndex st).flashcard
        = (st.currentDeck[randomIndex]?).getD { imageSrc := "", name := "" } := by
  constructor
  · have h := getLast?_push_trim st.historyRecords
      { flashcard := st.flashcard, isCorrect := isCorrect, timestamp := timestamp }
    simpa only [handleAnswer, NextCard, AddHistoryRecord] using h
  · rfl

/-- The 101-call scenario of C2: answers recorded as correct at timestamps
0, 1, ..., n-1. -/
def recordCalls (n : Nat) : List (Bool × Nat) :=
  (List.range n).map fun i => (true, i)

/-- Sequential execution of a list of `AddHistoryRecord` calls. -/
def runRecords (calls : List (Bool × Nat)) (st : FlashcardState) : FlashcardState :=
  calls.foldl (fun s c => AddHistoryRecord c.1 c.2 s) st

set_option maxRecDepth 100000 in
/-- C2: `AddHistoryRecord` preserves the 100-record bound, and after 101
sequential calls from an empty history the list holds exactly 100 records,
the first-appended record (timestamp 0) has been evicted and the
last-appended record (timestamp 100) is present. -/
theorem C2_history_bounded_fifo :
    (∀ (st : FlashcardState) (isCorrect : Bool) (timestamp : Nat),
        st.historyRecords.length ≤ 100 →
          (AddHistoryRecord isCorrect timestamp st).historyRecords.length ≤ 100)
      ∧ (runRecords (recordCalls 101) initialState).historyRecords.length = 100
      ∧ ({ flashcard := initialState.flashcard, isCorrect := true,
           timestamp := 0 } : HistoryRecord)
          ∉ (runRecords (recordCalls 101) initialState).historyRecords
      ∧ ({ flashcard := initialState.flashcard, isCorrect := true,
           timestamp := 100 } : HistoryRecord)
          ∈ (runRecords (recordCalls 101) initialState).historyRecords := by
  refine ⟨?_, by decide, by decide, by decide⟩
  intro st isCorrect timestamp h
  simp only [AddHistoryRecord]
  split <;> simp_all [List.length_tail, List.length_append]

/-- Embedding of `LoadDeckfromCache`. The persistence entry under the
`flashcardDeck` key is `stored : Option String` (`none` models an absent
key); the platform deserializer `JSON.parse` is the parameter `parse`,
returning `none` when it would throw. The result pairs the value returned to
the caller with the store entry after the call: the source removes the entry
(`localStorage.removeItem`) exactly when a present, truthy string fails to
parse, and JS string truthiness makes `if (cache)` false for the empty
string, which is therefore reported absent without being removed. -/
def LoadDeckfromCache (parse : String → Option (List Flashcard))
    (stored : Option String) : Option (List Flashcard) × Option String :=
  match stored with
  | none => (none, none)
  | some cache =>
    if cache ≠ "" then
      match parse cache with
      | some parsedCache => (some parsedCache, some cache)
      | none => (none, none)
    else
      (none, some cache)

/-- Modelled from the spec: the fragment of the platform JSON deserializer
(`JSON.parse` is a browser builtin, not code under src/) that the
persistence claims exercise. The empty string is not valid JSON (JSON.parse
throws on it), and the two-character array literal is the serialization of
the empty deck; every other string is treated as invalid in this fragment. -/
def jsonDeckParseFragment : String → Option (List Flashcard) :=
  fun s => if s = "[]" then some [] else none

/-- Embedding of `LoadHistoryfromLocal`: read the `flashcardHistory` entry
(`storedHistory : Option String`); a present, truthy (non-empty) string is
deserialized with the platform `JSON.parse` (parameter `parseHistory`, total
because the claims about this function concern stored values that are
arrays; the source applies no validation and no truncation) and installed
verbatim as the history list; an absent or empty entry leaves the state
unchanged. -/
def LoadHistoryfromLocal (parseHistory : String → List HistoryRecord)
    (storedHistory : Option String) (st : FlashcardState) : FlashcardState :=
  match storedHistory with
  | none => st
  | some historyString =>
    if historyString ≠ "" then
      { st with historyRecords := parseHistory historyString }
    else
      st

/-- Embedding of `initFlashcard`: when the deck is non-empty, install the
deck entry at `Math.floor (Math.random () * currentDeck.length)` (modelled by
`randomIndex`; that expression always lies below the deck length, which the
theorems carry as a hypothesis) as the active card; on an empty deck the
source only logs an error and changes nothing. The `getD` fallback covers
the in-source-unreachable out-of-range access. -/
def initFlashcard (randomIndex : Nat) (st : FlashcardState) : FlashcardState :=
  if 0 < st.currentDeck.length then
    { st with flashcard := (st.currentDeck[randomIndex]?).getD st.flashcard }
  else
    st

/-- Embedding of the first-call body of `useFlashcard` (the branch the
`isInitialized` latch guards; later calls skip it). It loads the history,
reads the deck cache, and on a cache hit — `if (cachedDeck)` is true for
every parsed array, the empty one included, because JS arrays are truthy —
installs the cached deck, sets `loadFinished` and selects the starting card
via `initFlashcard`; on a cache miss it starts the asynchronous
`LoadDeckfromLocal` and registers the `watch` on `loadFinished`, recorded
here as the Boolean `remoteLoadStarted` (the claims settled against this
definition concern the hit branch). Result: (state after the call,
deck-cache store entry after the call, whether a remote load was started). -/
def useFlashcardInit (parse : String → Option (List Flashcard))
    (parseHistory : String → List HistoryRecord)
    (deckStore storedHistory : Option String) (randomIndex : Nat)
    (st : FlashcardState) : FlashcardState × Option String × Bool :=
  let st1 := LoadHistoryfromLocal parseHistory storedHistory st
  match LoadDeckfromCache parse deckStore with
  | (some cachedDeck, deckStoreAfter) =>
    (initFlashcard randomIndex
        { st1 with currentDeck := cachedDeck, loadFinished := true },
      deckStoreAfter, false)
  | (none, deckStoreAfter) => (st1, deckStoreAfter, true)

/-- Loading the persisted history touches only the history list. -/
theorem LoadHistoryfromLocal_flashcard (parseHistory : String → List HistoryRecord)
    (storedHistory : Option String) (st : FlashcardState) :
    (LoadHistoryfromLocal parseHistory storedHistory st).flashcard = st.flashcard ∧
      (LoadHistoryfromLocal parseHistory storedHistory st).currentDeck = st.currentDeck ∧
      (LoadHistoryfromLocal parseHistory storedHistory st).loadFinished = st.loadFinished := by
  cases storedHistory with
  | none => exact ⟨rfl, rfl, rfl⟩
  | some s =>
    by_cases h : s ≠ "" <;> simp [LoadHistoryfromLocal, h]

/-- C5 amended: for every stored cache value that is a non-empty string and
not valid JSON, `LoadDeckfromCache` does not raise: it removes the cache
entry and reports absent, a subsequent read of the resulting store reports
absent, and the one exception forced by the counterexample — the
empty-string entry, which JS truthiness skips — also reports absent on every
read (though it stays in the store). -/
theorem C5_invalid_cache_removed (parse : String → Option (List Flashcard))
    (v : String) (hv : v ≠ "") (hparse : parse v = none) :
    LoadDeckfromCache parse (some v) = (none, none) ∧
      LoadDeckfromCache parse (LoadDeckfromCache parse (some v)).2 = (none, none) ∧
      (LoadDeckfromCache parse (some "")).1 = none := by
  simp [LoadDeckfromCache, hv, hparse]

/-- Witness for C5 at a concrete malformed non-empty stored value. -/
theorem C5_invalid_cache_removed_witness :
    LoadDeckfromCache jsonDeckParseFragment (some "x") = (none, none) ∧
      LoadDeckfromCache jsonDeckParseFragment
          (LoadDeckfromCache jsonDeckParseFragment (some "x")).2 = (none, none) ∧
      (LoadDeckfromCache jsonDeckParseFragment (some "")).1 = none :=
  C5_invalid_cache_removed jsonDeckParseFragment "x" (by decide) (by decide)

/-- Counterexample to C5 as stated: the empty string is a stored cache value
that is not valid JSON, yet the read does not remove the entry — JS string
truthiness makes `if (cache)` false, so the removal branch is skipped and
the entry survives the read (it is still reported absent). -/
theorem C5_counterexample :
    jsonDeckParseFragment "" = none ∧
      LoadDeckfromCache jsonDeckParseFragment (some "") = (none, some "") ∧
      (LoadDeckfromCache jsonDeckParseFragment (some "")).2 ≠ none := by
  refine ⟨rfl, rfl, ?_⟩
  decide

/-- C4: for every valid cached deck (a stored string that deserializes to a
deck; the spec's deck validity includes the non-empty invariant required
before card selection), the first `useFlashcard` call takes the cache-hit
path: it installs the cached deck, sets the load-finished flag, selects an
active card that is an entry of the deck, and starts no remote deck load
(no network fetch). -/
theorem C4_cache_hit_no_remote_load (parse : String → Option (List Flashcard))
    (parseHistory : String → List HistoryRecord) (s : String)
    (deck : List Flashcard) (storedHistory : Option String) (randomIndex : Nat)
    (st : FlashcardState) (hs : s ≠ "") (hparse : parse s = some deck)
    (hne : deck ≠ []) (hr : randomIndex < deck.length) :
    (useFlashcardInit parse parseHistory (some s) storedHistory randomIndex
        st).1.currentDeck = deck
      ∧ (useFlashcardInit parse parseHistory (some s) storedHistory randomIndex
          st).1.loadFinished = true
      ∧ (useFlashcardInit parse parseHistory (some s) storedHistory randomIndex
          st).2.2 = false
      ∧ (useFlashcardInit parse parseHistory (some s) storedHistory randomIndex
          st).1.flashcard ∈ deck := by
  have hcache : LoadDeckfromCache parse (some s) = (some deck, some s) := by
    simp [LoadDeckfromCache, hs, hparse]
  have h0 : 0 < deck.length := List.length_pos.mpr hne
  have hget : deck[randomIndex]? = some deck[randomIndex] :=
    List.getElem?_eq_getElem hr
  simp only [useFlashcardInit, hcache, initFlashcard]
  refine ⟨by simp [h0], by simp [h0], by simp [h0], ?_⟩
  simp only [h0, if_pos]
  simp only [hget, Option.getD_some]
  exact List.getElem_mem hr

/-- Witness for C4 at a one-card cached deck. -/
theorem C4_cache_hit_no_remote_load_witness :
    (useFlashcardInit
        (fun v => if v = "d" then some [{ imageSrc := "p", name := "cat" }] else none)
        (fun _ => []) (some "d") none 0 initialState).1.currentDeck
        = [{ imageSrc := "p", name := "cat" }]
      ∧ (useFlashcardInit
          (fun v => if v = "d" then some [{ imageSrc := "p", name := "cat" }] else none)
          (fun _ => []) (some "d") none 0 initialState).1.loadFinished = true
      ∧ (useFlashcardInit
          (fun v => if v = "d" then some [{ imageSrc := "p", name := "cat" }] else none)
          (fun _ => []) (some "d") none 0 initialState).2.2 = false
      ∧ (useFlashcardInit
          (fun v => if v = "d" then some [{ imageSrc := "p", name := "cat" }] else none)
          (fun _ => []) (some "d") none 0 initialState).1.flashcard
          ∈ [({ imageSrc := "p", name := "cat" } : Flashcard)] :=
  C4_cache_hit_no_remote_load
    (fun v => if v = "d" then some [{ imageSrc := "p", name := "cat" }] else none)
    (fun _ => []) "d" [{ imageSrc := "p", name := "cat" }] none 0 initialState
    (by decide) (by decide) (by decide) (by decide)

/-- C9: when the stored deck cache is the serialization of the empty array,
the first `useFlashcard` call treats it as a cache hit (a parsed array is
truthy in JS even when empty): it installs the empty deck, sets the
load-finished flag, starts no remote load, and — `initFlashcard` finding
the deck empty — leaves the active card as the empty placeholder. -/
theorem C9_empty_array_cache_hit (parse : String → Option (List Flashcard))
    (parseHistory : String → List HistoryRecord) (s : String)
    (storedHistory : Option String) (randomIndex : Nat)
    (hs : s ≠ "") (hparse : parse s = some []) :
    (useFlashcardInit parse parseHistory (some s) storedHistory randomIndex
        initialState).1.currentDeck = []
      ∧ (useFlashcardInit parse parseHistory (some s) storedHistory randomIndex
          initialState).1.loadFinished = true
      ∧ (useFlashcardInit parse parseHistory (some s) storedHistory randomIndex
          initialState).2.2 = false
      ∧ (useFlashcardInit parse parseHistory (some s) storedHistory randomIndex
          initialState).1.flashcard = { imageSrc := "", name := "" } := by
  have hcache : LoadDeckfromCache parse (some s) = (some [], some s) := by
    simp [LoadDeckfromCache, hs, hparse]
  have hfc := (LoadHistoryfromLocal_flashcard parseHistory storedHistory initialState).1
  simp only [useFlashcardInit, hcache, initFlashcard]
  refine ⟨by simp, by simp, by simp, ?_⟩
  simpa using hfc

/-- Witness for C9 at the concrete stored serialization of the empty array. -/
theorem C9_empty_array_cache_hit_witness :
    (useFlashcardInit jsonDeckParseFragment (fun _ => []) (some "[]") none 0
        initialState).1.currentDeck = []
      ∧ (useFlashcardInit jsonDeckParseFragment (fun _ => []) (some "[]") none 0
          initialState).1.loadFinished = true
      ∧ (useFlashcardInit jsonDeckParseFragment (fun _ => []) (some "[]") none 0
          initialState).2.2 = false
      ∧ (useFlashcardInit jsonDeckParseFragment (fun _ => []) (some "[]") none 0
          initialState).1.flashcard = { imageSrc := "", name := "" } :=
  C9_empty_array_cache_hit jsonDeckParseFragment (fun _ => []) "[]" none 0
    (by decide) (by decide)

/-- C10: `LoadHistoryfromLocal` installs a stored history array verbatim —
no truncation, no validation — so a stored array with more than 100 records
puts the in-memory history above the cap; a subsequent `AddHistoryRecord`
call appends its record and evicts exactly one oldest record, leaving the
length unchanged (still above 100 when more than 101 were stored). -/
theorem C10_history_loaded_verbatim (parseHistory : String → List HistoryRecord)
    (s : String) (st : FlashcardState) (isCorrect : Bool) (timestamp : Nat)
    (hs : s ≠ "") (hlen : 100 < (parseHistory s).length) :
    (LoadHistoryfromLocal parseHistory (some s) st).historyRecords = parseHistory s
      ∧ (AddHistoryRecord isCorrect timestamp
          (LoadHistoryfromLocal parseHistory (some s) st)).historyRecords
        = (parseHistory s).tail ++
            [{ flashcard := st.flashcard, isCorrect := isCorrect,
               timestamp := timestamp }]
      ∧ (AddHistoryRecord isCorrect timestamp
          (LoadHistoryfromLocal parseHistory (some s) st)).historyRecords.length
        = (parseHistory s).length := by
  have hinstall : (LoadHistoryfromLocal parseHistory (some s) st).historyRecords
      = parseHistory s := by
    simp [LoadHistoryfromLocal, hs]
  have hfc : (LoadHistoryfromLocal parseHistory (some s) st).flashcard
      = st.flashcard :=
    (LoadHistoryfromLocal_flashcard parseHistory (some s) st).1
  have hnil : parseHistory s ≠ [] := by
    intro hemp
    rw [hemp] at hlen
    simp at hlen
  have hcond : 100 < (parseHistory s ++
      [({ flashcard := st.flashcard, isCorrect := isCorrect,
          timestamp := timestamp } : HistoryRecord)]).length := by
    simp
    omega
  refine ⟨hinstall, ?_, ?_⟩
  · simp only [AddHistoryRecord, hinstall, hfc, if_pos hcond]
    exact List.tail_append_singleton_of_ne_nil hnil
  · simp only [AddHistoryRecord, hinstall, hfc, if_pos hcond]
    rw [List.tail_append_singleton_of_ne_nil hnil]
    simp [List.length_tail]
    omega

/-- A stored history of 101 records, for the C10 witness. -/
def manyRecords : List HistoryRecord :=
  (List.range 101).map fun i =>
    { flashcard := { imageSrc := "", name := "" }, isCorrect := true, timestamp := i }

set_option maxRecDepth 100000 in
/-- Witness for C10 at a concrete 101-record stored history. -/
theorem C10_history_loaded_verbatim_witness :
    (LoadHistoryfromLocal (fun _ => manyRecords) (some "h")
        initialState).historyRecords = manyRecords
      ∧ (AddHistoryRecord true 200
          (LoadHistoryfromLocal (fun _ => manyRecords) (some "h")
            initialState)).historyRecords
        = manyRecords.tail ++
            [{ flashcard := initialState.flashcard, isCorrect := true,
               timestamp := 200 }]
      ∧ (AddHistoryRecord true 200
          (LoadHistoryfromLocal (fun _ => manyRecords) (some "h")
            initialState)).historyRecords.length = manyRecords.length :=
  C10_history_loaded_verbatim (fun _ => manyRecords) "h" initialState true 200
    (by decide) (by decide)

/-- The source path of the base png candidate for an identifier. -/
def pngBaseSrc (photoFolderPath itemName : String) : String :=
  photoFolderPath ++ itemName ++ ".png"

/-- The source path of the base jpg candidate for an identifier. -/
def jpgBaseSrc (photoFolderPath itemName : String) : String :=
  photoFolderPath ++ itemName ++ ".jpg"

/-- The source path of the indexed png candidate for an identifier. -/
def pngSrc (photoFolderPath itemName : String) (imageIndex : Nat) : String :=
  photoFolderPath ++ itemName ++ toString imageIndex ++ ".png"

/-- The source path of the indexed jpg candidate for an identifier. -/
def jpgSrc (photoFolderPath itemName : String) (imageIndex : Nat) : String :=
  photoFolderPath ++ itemName ++ toString imageIndex ++ ".jpg"

/-- One `try \x7b await LoadImageBySrc ... \x7d catch ...` attempt of
`LoadDeckfromLocal`: the deck after the attempt and whether it succeeded
(the `catch` absorbs the thrown error). -/
def attemptLoad (fetchImage : String → FetchResponse) (src itemName : String)
    (deck : List Flashcard) : List Flashcard × Bool :=
  match LoadImageBySrc (fetchImage src) src itemName deck with
  | Except.ok d => (d, true)
  | Except.error _ => (deck, false)

/-- An attempt at `src` succeeds exactly when the fetched response is ok and
its blob content type is an accepted image type. -/
def imageSuccess (fetchImage : String → FetchResponse) (src : String) : Bool :=
  (fetchImage src).ok &&
    ((fetchImage src).blobType == "image/jpeg" ||
      (fetchImage src).blobType == "image/png")

/-- Embedding of the `while (imageIndex < 10)` indexed probe of
`LoadDeckfromLocal`. `fuel` is `10 - imageIndex`, so the call in the source
runs with fuel 9 from index 1. `pngFlag` and `jpgFlag` are the source's
flags declared outside the loop body: a failed attempt at any index sets
them and nothing ever resets them. The result triple is the updated deck,
the updated per-identifier success count, and the list of indices whose
attempts ran. -/
def indexedProbeLoop (fetchImage : String → FetchResponse)
    (photoFolderPath itemName : String) :
    Nat → Nat → Bool → Bool → List Flashcard → Nat → List Nat →
      List Flashcard × Nat × List Nat
  | 0, _, _, _, deck, count, probed => (deck, count, probed)
  | fuel + 1, imageIndex, pngFlag, jpgFlag, deck, count, probed =>
    let resPng := attemptLoad fetchImage (pngSrc photoFolderPath itemName imageIndex)
      itemName deck
    let count1 := if resPng.2 then count + 1 else count
    let pngFlag1 := pngFlag || !resPng.2
    let resJpg := attemptLoad fetchImage (jpgSrc photoFolderPath itemName imageIndex)
      itemName resPng.1
    let count2 := if resJpg.2 then count1 + 1 else count1
    let jpgFlag1 := jpgFlag || !resJpg.2
    let probed1 := probed ++ [imageIndex]
    if pngFlag1 && jpgFlag1 then (resJpg.1, count2, probed1)
    else
      indexedProbeLoop fetchImage photoFolderPath itemName fuel (imageIndex + 1)
        pngFlag1 jpgFlag1 resJpg.1 count2 probed1

/-- Embedding of the per-identifier body of the `for` loop of
`LoadDeckfromLocal`: the base-name attempt with `.png`, then with `.jpg`,
then the indexed probe over indices 1..9. Returns the updated deck and the
number of images loaded for this identifier. -/
def loadItem (fetchImage : String → FetchResponse)
    (photoFolderPath itemName : String) (deck : List Flashcard) :
    List Flashcard × Nat :=
  let resPng := attemptLoad fetchImage (pngBaseSrc photoFolderPath itemName)
    itemName deck
  let count1 := if resPng.2 then 1 else 0
  let resJpg := attemptLoad fetchImage (jpgBaseSrc photoFolderPath itemName)
    itemName resPng.1
  let count2 := if resJpg.2 then count1 + 1 else count1
  let res := indexedProbeLoop fetchImage photoFolderPath itemName 9 1 false false
    resJpg.1 count2 []
  (res.1, res.2.1)

/-- Embedding of `LoadDeckfromLocal`. `configResult` is the outcome of the
`try` around the `deck-config.json` fetch: `some names` when the fetch
resolved, the body parsed and `itemNames` was an array, and `none` for every
failure path (the `catch` makes the list empty). `shuffle` stands for the
comparator-randomised `itemNames.sort` (a permutation of its input);
`stringify` is the platform `JSON.stringify` that `saveDeckCache` uses. The
`if (!currentDeck.value) throw` guard is dead code — the ref always holds an
array, which is truthy — so the embedding reaches `Except.ok` on every
input; the `Except` return type records the absence of a thrown error. The
string in the result is the value `saveDeckCache` writes to the store. -/
def LoadDeckfromLocal (fetchImage : String → FetchResponse)
    (shuffle : List String → List String) (stringify : List Flashcard → String)
    (configResult : Option (List String)) (photoFolderPath : String)
    (st : FlashcardState) : Except String (FlashcardState × String) :=
  let itemNames :=
    match configResult with
    | some names => names
    | none => []
  let shuffled := shuffle itemNames
  let folded := shuffled.foldl
    (fun (acc : List Flashcard × Bool) itemName =>
      let res := loadItem fetchImage photoFolderPath itemName acc.1
      (res.1, acc.2 || decide (0 < res.2)))
    (st.currentDeck, st.loadFinished)
  Except.ok ({ st with currentDeck := folded.1, loadFinished := folded.2 },
    stringify folded.1)

/-- C6: when the config fetch rejects or its body fails to yield an
`itemNames` array, `LoadDeckfromLocal` completes without throwing
(`Except.ok`), treats the identifier list as empty — starting from the fresh
session state nothing is loaded, `loadFinished` stays false — and produces
an empty deck, persisting its serialization to the cache. -/
theorem C6_config_failure_empty_deck (fetchImage : String → FetchResponse)
    (shuffle : List String → List String) (stringify : List Flashcard → String)
    (photoFolderPath : String) (hshuffle : shuffle [] = []) :
    LoadDeckfromLocal fetchImage shuffle stringify none photoFolderPath
        initialState
      = Except.ok (initialState, stringify []) := by
  simp [LoadDeckfromLocal, hshuffle, initialState]

/-- Witness for C6 at a concrete all-404 fetch oracle and identity shuffle. -/
theorem C6_config_failure_empty_deck_witness :
    LoadDeckfromLocal (fun _ => { ok := false, blobType := "" }) id
        (fun _ => "[]") none "photo/" initialState
      = Except.ok (initialState, "[]") :=
  C6_config_failure_empty_deck (fun _ => { ok := false, blobType := "" }) id
    (fun _ => "[]") "photo/" rfl

/-- The number of iterations the indexed probe executes, as a function of the
per-index failure predicates: one iteration per index from `imageIndex` on,
stopping with the first index at which both sticky flags are set, bounded by
the fuel. -/
def probeLen (pngFail jpgFail : Nat → Bool) : Nat → Nat → Bool → Bool → Nat
  | 0, _, _, _ => 0
  | fuel + 1, imageIndex, pngFlag, jpgFlag =>
    let pngFlag1 := pngFlag || pngFail imageIndex
    let jpgFlag1 := jpgFlag || jpgFail imageIndex
    if pngFlag1 && jpgFlag1 then 1
    else 1 + probeLen pngFail jpgFail fuel (imageIndex + 1) pngFlag1 jpgFlag1

/-- An attempt succeeds exactly when `imageSuccess` holds of its source. -/
theorem attemptLoad_snd (fetchImage : String → FetchResponse)
    (src itemName : String) (deck : List Flashcard) :
    (attemptLoad fetchImage src itemName deck).2 = imageSuccess fetchImage src := by
  simp only [attemptLoad, LoadImageBySrc, imageSuccess]
  cases hok : (fetchImage src).ok with
  | false => simp
  | true =>
    cases hbt : ((fetchImage src).blobType == "image/jpeg" ||
        (fetchImage src).blobType == "image/png") with
    | false => simp [hbt]
    | true => simp [hbt]

/-- The probed-indices component of the loop is the consecutive range from
the start index whose length `probeLen` computes from the two per-index
failure predicates. -/
theorem indexedProbeLoop_probed (fetchImage : String → FetchResponse)
    (photoFolderPath itemName : String) :
    ∀ (fuel imageIndex : Nat) (pngFlag jpgFlag : Bool) (deck : List Flashcard)
      (count : Nat) (probed : List Nat),
      (indexedProbeLoop fetchImage photoFolderPath itemName fuel imageIndex
          pngFlag jpgFlag deck count probed).2.2
        = probed ++ List.range' imageIndex
            (probeLen
              (fun i => !imageSuccess fetchImage (pngSrc photoFolderPath itemName i))
              (fun i => !imageSuccess fetchImage (jpgSrc photoFolderPath itemName i))
              fuel imageIndex pngFlag jpgFlag) := by
  intro fuel
  induction fuel with
  | zero =>
    intro imageIndex pngFlag jpgFlag deck count probed
    simp [indexedProbeLoop, probeLen]
  | succ fuel ih =>
    intro imageIndex pngFlag jpgFlag deck count probed
    simp only [indexedProbeLoop, probeLen, attemptLoad_snd]
    by_cases hc : ((pngFlag || !imageSuccess fetchImage
          (pngSrc photoFolderPath itemName imageIndex))
        && (jpgFlag || !imageSuccess fetchImage
          (jpgSrc photoFolderPath itemName imageIndex))) = true
    · rw [if_pos hc, if_pos hc]
      simp [List.range'_one]
    · rw [if_neg hc, if_neg hc]
      rw [ih]
      rw [Nat.add_comm 1 (probeLen _ _ _ _ _ _), List.range'_succ]
      simp

/-- The probe never runs more iterations than its fuel allows. -/
theorem probeLen_le (pngFail jpgFail : Nat → Bool) :
    ∀ (fuel imageIndex : Nat) (pngFlag jpgFlag : Bool),
      probeLen pngFail jpgFail fuel imageIndex pngFlag jpgFlag ≤ fuel := by
  intro fuel
  induction fuel with
  | zero => intro i a b; simp [probeLen]
  | succ fuel ih =>
    intro i a b
    simp only [probeLen]
    split
    · omega
    · have := ih (i + 1) (a || pngFail i) (b || jpgFail i)
      omega

/-- Splitting off the head of a `range'` under `any`. -/
theorem any_range'_succ (f : Nat → Bool) (s t : Nat) :
    (List.range' s (t + 1)).any f = (f s || (List.range' (s + 1) t).any f) := by
  rw [List.range'_succ]
  simp

/-- The probe runs fewer iterations than its fuel exactly when, strictly
before the fuel runs out, some prefix of the probed indices (together with
the flags already carried in) contains a png failure and a jpg failure — at
possibly different indices. -/
theorem probeLen_lt_iff (pngFail jpgFail : Nat → Bool) :
    ∀ (fuel imageIndex : Nat) (pngFlag jpgFlag : Bool),
      probeLen pngFail jpgFail fuel imageIndex pngFlag jpgFlag < fuel
        ↔ ∃ t, t + 1 < fuel ∧
            ((pngFlag || (List.range' imageIndex (t + 1)).any pngFail)
              && (jpgFlag || (List.range' imageIndex (t + 1)).any jpgFail)) = true := by
  intro fuel
  induction fuel with
  | zero =>
    intro i a b
    constructor
    · intro h; omega
    · rintro ⟨t, ht, -⟩; omega
  | succ fuel ih =>
    intro i a b
    simp only [probeLen]
    by_cases hc : ((a || pngFail i) && (b || jpgFail i)) = true
    · rw [if_pos hc]
      constructor
      · intro h
        refine ⟨0, by omega, ?_⟩
        simpa [List.range'_one] using hc
      · rintro ⟨t, ht, -⟩
        omega
    · rw [if_neg hc]
      have h1 : 1 + probeLen pngFail jpgFail fuel (i + 1) (a || pngFail i)
          (b || jpgFail i) < fuel + 1
          ↔ probeLen pngFail jpgFail fuel (i + 1) (a || pngFail i)
              (b || jpgFail i) < fuel := by
        omega
      rw [h1, ih]
      constructor
      · rintro ⟨t, ht, hP⟩
        refine ⟨t + 1, by omega, ?_⟩
        rw [any_range'_succ pngFail i (t + 1), any_range'_succ jpgFail i (t + 1)]
        simp only [← Bool.or_assoc]
        exact hP
      · rintro ⟨t, ht, hP⟩
        cases t with
        | zero => simp_all [List.range'_one]
        | succ t' =>
          refine ⟨t', by omega, ?_⟩
          rw [any_range'_succ pngFail i (t' + 1), any_range'_succ jpgFail i (t' + 1)]
            at hP
          simp only [← Bool.or_assoc] at hP
          exact hP

/-- C1 amended: the indexed probe of `LoadDeckfromLocal` terminates early —
it does not reach all of indices 1..9 — exactly when some prefix 1..k of the
probed indices with k at most 8 contains a failed `.png` attempt and a
failed `.jpg` attempt, at possibly different indices: the two failure flags
live outside the loop and are never reset, so a `.png` miss at one index
combines with a `.jpg` miss at a later index to stop the probe. -/
theorem C1_probe_early_termination_sticky (fetchImage : String → FetchResponse)
    (photoFolderPath itemName : String) (deck : List Flashcard) (count : Nat) :
    (indexedProbeLoop fetchImage photoFolderPath itemName 9 1 false false deck
        count []).2.2 ≠ List.range' 1 9
      ↔ ∃ k, 1 ≤ k ∧ k ≤ 8
          ∧ (List.range' 1 k).any
              (fun i => !imageSuccess fetchImage
                (pngSrc photoFolderPath itemName i)) = true
          ∧ (List.range' 1 k).any
              (fun i => !imageSuccess fetchImage
                (jpgSrc photoFolderPath itemName i)) = true := by
  rw [indexedProbeLoop_probed]
  simp only [List.nil_append]
  have hle := probeLen_le
    (fun i => !imageSuccess fetchImage (pngSrc photoFolderPath itemName i))
    (fun i => !imageSuccess fetchImage (jpgSrc photoFolderPath itemName i))
    9 1 false false
  have hiff := probeLen_lt_iff
    (fun i => !imageSuccess fetchImage (pngSrc photoFolderPath itemName i))
    (fun i => !imageSuccess fetchImage (jpgSrc photoFolderPath itemName i))
    9 1 false false
  constructor
  · intro hne
    have hm : probeLen
        (fun i => !imageSuccess fetchImage (pngSrc photoFolderPath itemName i))
        (fun i => !imageSuccess fetchImage (jpgSrc photoFolderPath itemName i))
        9 1 false false < 9 := by
      rcases Nat.lt_or_ge (probeLen
          (fun i => !imageSuccess fetchImage (pngSrc photoFolderPath itemName i))
          (fun i => !imageSuccess fetchImage (jpgSrc photoFolderPath itemName i))
          9 1 false false) 9 with h | h
      · exact h
      · exact absurd (by rw [Nat.le_antisymm hle h]) hne
    obtain ⟨t, ht, hcond⟩ := hiff.mp hm
    simp only [Bool.false_or, Bool.and_eq_true] at hcond
    exact ⟨t + 1, by omega, by omega, hcond.1, hcond.2⟩
  · rintro ⟨k, hk1, hk8, hp, hj⟩
    have hm : probeLen
        (fun i => !imageSuccess fetchImage (pngSrc photoFolderPath itemName i))
        (fun i => !imageSuccess fetchImage (jpgSrc photoFolderPath itemName i))
        9 1 false false < 9 := by
      apply hiff.mpr
      refine ⟨k - 1, by omega, ?_⟩
      have hkk : k - 1 + 1 = k := by omega
      rw [hkk]
      simp [hp, hj]
    intro heq
    have hlen := congrArg List.length heq
    simp only [List.length_range'] at hlen
    omega

/-- The C1 counterexample fetch oracle: the indexed png candidate 1 and the
indexed jpg candidate 2 of identifier `cat` are missing; every other source
resolves to a valid png response. -/
def c1Oracle : String → FetchResponse := fun src =>
  if src = pngSrc "photo/" "cat" 1 ∨ src = jpgSrc "photo/" "cat" 2 then
    { ok := false, blobType := "" }
  else
    { ok := true, blobType := "image/png" }

set_option maxRecDepth 100000 in
/-- Counterexample to C1 as stated: under `c1Oracle` the probe stops after
index 2 (only indices 1 and 2 run, an early termination), although the two
extensions never both fail at one and the same index — the `.png` fetch
failed at index 1 and the `.jpg` fetch failed at index 2. -/
theorem C1_counterexample :
    (indexedProbeLoop c1Oracle "photo/" "cat" 9 1 false false [] 0 []).2.2 = [1, 2]
      ∧ [1, 2] ≠ List.range' 1 9
      ∧ imageSuccess c1Oracle (pngSrc "photo/" "cat" 1) = false
      ∧ imageSuccess c1Oracle (jpgSrc "photo/" "cat" 2) = false
      ∧ (∀ k ∈ [1, 2],
          imageSuccess c1Oracle (pngSrc "photo/" "cat" k) = true
            ∨ imageSuccess c1Oracle (jpgSrc "photo/" "cat" k) = true) := by
  decide
